import Mathlib

/-!
Shallow embedding of `src/mongo/db/s/balancer/scoped_migration_request.cpp`.

The C++ file implements a move-only RAII handle (`ScopedMigrationRequest`)
over a durable migration record stored in `config.migrations`.  The store
(catalog client / config shard) is external; here it is modelled by
oracles: each call site that talks to the store consumes a response value
supplied as input, and every store interaction performed by the code is
recorded in an explicit trace of `StoreOp` values.  Log statements
(LOGV2 and LOGV2_DEBUG) are recorded as `LogEvent` values.

Machine state that matters to the claims: the handle holds a nullable
`_opCtx` pointer (modelled as the Boolean `opCtx`: `true` = non-null =
Armed, `false` = null = Disarmed), a namespace string `_nss`, and a
min-key `_minKey` (BSON keys are opaque to this code; modelled as `Int`).
-/

namespace ScopedMigration

/-- Error codes used by the code under study.  `other n` stands for any
store-defined code distinct from the distinguished ones. -/
inductive ErrorCodes where
  | DuplicateKey
  | OperationFailed
  | FailedToParse
  | other (n : Nat)
deriving DecidableEq, Repr

/-- `mongo::Status`: OK or an error code plus a reason string. -/
inductive Status where
  | ok
  | error (code : ErrorCodes) (reason : String)
deriving DecidableEq, Repr

/-- `Status::isOK()`. -/
def Status.isOK : Status → Bool
  | .ok => true
  | .error _ _ => false

/-- `status.withContext(s)`: prepends context to the reason, keeping the code.
On an OK status it is the identity (the code never does this). -/
def Status.withContext (s : Status) (ctx : String) : Status :=
  match s with
  | .ok => .ok
  | .error c r => .error c (ctx ++ " :: caused by :: " ++ r)

/-- The balancer `MigrateInfo` descriptor: namespace, chunk range bounds and
the two shard owners.  (`from`/`to` in C++; renamed because `from` is
reserved in Lean.) -/
structure MigrateInfo where
  ns : String
  minKey : Int
  maxKey : Int
  fromShard : String
  toShard : String
deriving DecidableEq, Repr

/-- `MigrateInfo::toString()` (shape only; used inside wrapped error
messages, whose exact text no claim depends on). -/
def MigrateInfo.descString (m : MigrateInfo) : String :=
  m.ns ++ ": [" ++ toString m.minKey ++ ", " ++ toString m.maxKey ++ "), from "
    ++ m.fromShard ++ ", to " ++ m.toShard

/-- The durable `MigrationType` document written to `config.migrations`:
identity (ns, min) plus payload (max, from, to, waitForDelete). -/
structure MigrationType where
  ns : String
  minKey : Int
  maxKey : Int
  fromShard : String
  toShard : String
  waitForDelete : Bool
deriving DecidableEq, Repr

/-- The `MigrationType(nss, migrateInfo, waitForDelete)` constructor. -/
def MigrationType.ofMigrateInfo (nss : String) (info : MigrateInfo)
    (waitForDelete : Bool) : MigrationType :=
  ⟨nss, info.minKey, info.maxKey, info.fromShard, info.toShard, waitForDelete⟩

/-- `MigrationType::toMigrateInfo`: rebuild the descriptor from the document. -/
def MigrationType.toMigrateInfo (m : MigrationType) : MigrateInfo :=
  ⟨m.ns, m.minKey, m.maxKey, m.fromShard, m.toShard⟩

/-- A document returned by the config query: either a well-formed migration
document or one that `MigrationType::fromBSON` rejects. -/
inductive BDoc where
  | wellFormed (m : MigrationType)
  | bad (code : ErrorCodes) (reason : String)
deriving DecidableEq, Repr

/-- `MigrationType::fromBSON`. -/
def BDoc.fromBSON : BDoc → Except (ErrorCodes × String) MigrationType
  | .wellFormed m => .ok m
  | .bad c r => .error (c, r)

/-- The composite identity `(namespace, minKey)` keying a migration record. -/
structure MigIdent where
  ns : String
  minKey : Int
deriving DecidableEq, Repr

/-- The only write concern this code uses is `kMajorityWriteConcern`. -/
inductive WriteConcern where
  | majority
deriving DecidableEq, Repr

/-- `const int kDuplicateKeyErrorMaxRetries = 2;` -/
def kDuplicateKeyErrorMaxRetries : Nat := 2

/-- One store interaction performed by the code, in execution order. -/
inductive StoreOp where
  | insertOp (doc : MigrationType) (wc : WriteConcern)
  | findOp (ident : MigIdent)
  | removeOp (ident : MigIdent) (wc : WriteConcern)
deriving DecidableEq, Repr

/-- A log statement emitted by the code. -/
inductive LogEvent where
  /-- LOGV2 21900: destructor failed to remove the document; the error is
  swallowed. -/
  | removeFailed (ident : MigIdent) (err : Status)
  /-- LOGV2 21901: insert conflicted with a different active migration;
  carries the requested and the active descriptor and the insert error. -/
  | activeMigrationConflict (requested active : MigrateInfo) (err : Status)
  /-- LOGV2_DEBUG 21902: document deliberately kept for balancer recovery. -/
  | keepingDocument (ident : MigIdent)
deriving DecidableEq, Repr

/-- The `ScopedMigrationRequest` handle: `opCtx = true` models a non-null
`_opCtx` (Armed); `false` models null (Disarmed). -/
structure ScopedMigrationRequest where
  opCtx : Bool
  nss : String
  minKey : Int
deriving DecidableEq, Repr

/-- The identity the handle would delete at. -/
def ScopedMigrationRequest.ident (h : ScopedMigrationRequest) : MigIdent :=
  ⟨h.nss, h.minKey⟩

/-- `~ScopedMigrationRequest()`: if `_opCtx` is null, do nothing; otherwise
issue one majority-write-concern delete at the identity, and if the store
reports failure log it (event 21900) and swallow it.  `removeRes` is the
store oracle for the delete.  The return type carries no `Status`: by
construction the destructor cannot propagate an error. -/
def ScopedMigrationRequest.destruct (h : ScopedMigrationRequest)
    (removeRes : Status) : List StoreOp × List LogEvent :=
  if h.opCtx = false then ([], [])
  else ([.removeOp h.ident .majority],
        if removeRes.isOK then [] else [.removeFailed h.ident removeRes])

/-- Move assignment `operator=(ScopedMigrationRequest&&)` for two distinct
objects (`this != &other`): copy `_opCtx`, `_nss`, `_minKey` from the
source, then null the source `_opCtx`.  Returns (destination, source)
after the move. -/
def moveAssign (dest src : ScopedMigrationRequest) :
    ScopedMigrationRequest × ScopedMigrationRequest :=
  let _ := dest
  (⟨src.opCtx, src.nss, src.minKey⟩, ⟨false, src.nss, src.minKey⟩)

/-- Move assignment when `this == &other`: the body is guarded by
`if (this != &other)`, so nothing happens and the object is returned
unchanged. -/
def moveAssignSelf (h : ScopedMigrationRequest) : ScopedMigrationRequest := h

/-- Move construction delegates to move assignment (the destination fields
before the move are indeterminate and are all overwritten). -/
def moveConstruct (src : ScopedMigrationRequest) :
    ScopedMigrationRequest × ScopedMigrationRequest :=
  moveAssign ⟨false, "", 0⟩ src

/-- `ScopedMigrationRequest::createForRecovery`: plain construction, no
store interaction (the return type admits no `StoreOp`), `_opCtx` set. -/
def createForRecovery (nss : String) (minKey : Int) : ScopedMigrationRequest :=
  ⟨true, nss, minKey⟩

/-- `ScopedMigrationRequest::tryToRemoveMigration`: `invariant(_opCtx)` —
calling on a Disarmed handle is a programming error, modelled as `none`.
Otherwise issue one majority delete at the identity; on store success null
`_opCtx`; on failure leave the handle untouched.  Returns the updated
handle, the status given back to the caller, and the store trace. -/
def ScopedMigrationRequest.tryToRemoveMigration (h : ScopedMigrationRequest)
    (removeRes : Status) :
    Option (ScopedMigrationRequest × Status × List StoreOp) :=
  if h.opCtx = false then none
  else some (if removeRes.isOK then ⟨false, h.nss, h.minKey⟩ else h,
             removeRes, [.removeOp h.ident .majority])

/-- `ScopedMigrationRequest::keepDocumentOnDestruct`: `invariant(_opCtx)`;
null `_opCtx` and emit the debug log.  No store interaction. -/
def ScopedMigrationRequest.keepDocumentOnDestruct (h : ScopedMigrationRequest) :
    Option (ScopedMigrationRequest × List LogEvent) :=
  if h.opCtx = false then none
  else some (⟨false, h.nss, h.minKey⟩, [.keepingDocument h.ident])

/-- Oracle for one iteration of the `writeMigration` retry loop: the store
responses to the insert, to the conflict-verification query (consulted only
on DuplicateKey), and to the delete issued by the local handle destructor
on the non-DuplicateKey write-error exit path. -/
structure StoreRound where
  insertRes : Status
  findRes : Except (ErrorCodes × String) (List BDoc)
  removeRes : Status
deriving Repr

/-- Outcome of `writeMigration`: a returned handle, a returned error
status, or a fatal `invariant` failure (query returned more than one
document for a unique identity). -/
inductive WMOutcome where
  | handle (h : ScopedMigrationRequest)
  | err (s : Status)
  | fatal
deriving DecidableEq, Repr

/-- Context string of the `withContext` wrap on a failed verification query. -/
def verifyQueryCtx (info : MigrateInfo) : String :=
  "Failed to verify whether conflicting migration is in progress for migration "
    ++ info.descString ++ " while trying to query config.migrations."

/-- Context string of the `withContext` wrap on an unparsable active document. -/
def parseDocCtx (info : MigrateInfo) : String :=
  "Failed to verify whether conflicting migration is in progress for migration "
    ++ info.descString ++ " while trying to parse active migration document."

/-- The `ErrorCodes::OperationFailed` status returned when the retry bound
is exhausted, naming the chunk range and collection. -/
def exhaustedRetriesStatus (info : MigrateInfo) (nss : String) : Status :=
  .error .OperationFailed
    ("Failed to insert the config.migrations document after max number of "
      ++ "retries. Chunk [" ++ toString info.minKey ++ ", " ++ toString info.maxKey
      ++ ") in collection " ++ nss
      ++ " was being moved (somewhere) by another operation.")

/-- The body of the `for (retry = 0; retry < kDuplicateKeyErrorMaxRetries;)`
loop in `ScopedMigrationRequest::writeMigration`, one `StoreRound` per
iteration; the empty list is the loop falling through to the
exhausted-retries return.  Returns the store-operation trace, the log
trace and the outcome. -/
def writeMigrationLoop (mt : MigrationType) (info : MigrateInfo) (nss : String) :
    List StoreRound → List StoreOp × List LogEvent × WMOutcome
  | [] => ([], [], .err (exhaustedRetriesStatus info nss))
  | r :: rest =>
    let ident : MigIdent := ⟨nss, info.minKey⟩
    match r.insertRes with
    | .ok =>
        -- insert succeeded: construct the local handle and move it out
        -- (the moved-from local is Disarmed, so its destructor is a no-op).
        ([.insertOp mt .majority], [], .handle ⟨true, nss, info.minKey⟩)
    | .error code reason =>
      if code = .DuplicateKey then
        match r.findRes with
        | .error (fc, fr) =>
            ([.insertOp mt .majority, .findOp ident], [],
             .err ((Status.error fc fr).withContext (verifyQueryCtx info)))
        | .ok docs =>
          match docs with
          | [] =>
              -- conflicting document vanished: retry the insert.
              let (ops, logs, out) := writeMigrationLoop mt info nss rest
              ([.insertOp mt .majority, .findOp ident] ++ ops, logs, out)
          | [d] =>
            match d.fromBSON with
            | .error (pc, pr) =>
                ([.insertOp mt .majority, .findOp ident], [],
                 .err ((Status.error pc pr).withContext (parseDocCtx info)))
            | .ok activeMt =>
              let active := activeMt.toMigrateInfo
              if active.toShard ≠ info.toShard ∨ active.fromShard ≠ info.fromShard then
                -- mismatch: log 21901 with both descriptors and return the
                -- unmodified insert status.
                ([.insertOp mt .majority, .findOp ident],
                 [.activeMigrationConflict info active (.error code reason)],
                 .err (.error code reason))
              else
                -- same migration already active: result = Status::OK(), so
                -- an Armed handle is constructed and moved out.
                ([.insertOp mt .majority, .findOp ident], [],
                 .handle ⟨true, nss, info.minKey⟩)
          | _ :: _ :: _ =>
              -- invariant(docs.size() == 1) fails.
              ([.insertOp mt .majority, .findOp ident], [], .fatal)
      else
        -- non-DuplicateKey write error: the local handle is constructed,
        -- the error is returned, and the local handle destructor fires a
        -- best-effort delete on the way out.
        let (dOps, dLogs) :=
          ScopedMigrationRequest.destruct ⟨true, nss, info.minKey⟩ r.removeRes
        ([.insertOp mt .majority] ++ dOps, dLogs, .err (.error code reason))

/-- `ScopedMigrationRequest::writeMigration(opCtx, migrateInfo, waitForDelete)`:
builds the document and runs the bounded loop.  The loop bound
`kDuplicateKeyErrorMaxRetries = 2` means the oracle list has exactly two
rounds; `store` supplies the round for each iteration index. -/
def writeMigration (store : Nat → StoreRound) (info : MigrateInfo)
    (waitForDelete : Bool) : List StoreOp × List LogEvent × WMOutcome :=
  let nss := info.ns
  let mt := MigrationType.ofMigrateInfo nss info waitForDelete
  writeMigrationLoop mt info nss (List.ofFn fun i : Fin kDuplicateKeyErrorMaxRetries => store i)

/-- Number of insert attempts in a store trace. -/
def countInserts : List StoreOp → Nat
  | [] => 0
  | .insertOp _ _ :: rest => countInserts rest + 1
  | _ :: rest => countInserts rest

/-- Number of delete operations in a store trace. -/
def countRemoves : List StoreOp → Nat
  | [] => 0
  | .removeOp _ _ :: rest => countRemoves rest + 1
  | _ :: rest => countRemoves rest


/-- A caller action on a live handle during its lifetime: an explicit
`tryToRemoveMigration` call (with the store's reply to the delete), or a
`keepDocumentOnDestruct` call. -/
inductive HandleAction where
  | tryRemoveAct (storeRes : Status)
  | keepAct
deriving DecidableEq, Repr

/-- Run a sequence of caller actions on a handle, accumulating the store
and log traces.  `none` models a fatal `invariant(_opCtx)` failure
(calling either operation on a Disarmed handle). -/
def runActions (h : ScopedMigrationRequest) :
    List HandleAction → Option (ScopedMigrationRequest × List StoreOp × List LogEvent)
  | [] => some (h, [], [])
  | .tryRemoveAct res :: rest =>
    match h.tryToRemoveMigration res with
    | none => none
    | some (h1, _st, ops) =>
      match runActions h1 rest with
      | none => none
      | some (h2, ops2, logs2) => some (h2, ops ++ ops2, logs2)
  | .keepAct :: rest =>
    match h.keepDocumentOnDestruct with
    | none => none
    | some (h1, logs) =>
      match runActions h1 rest with
      | none => none
      | some (h2, ops2, logs2) => some (h2, ops2, logs ++ logs2)

/-- A full handle lifetime: the caller actions followed by destruction at
scope end (`dtorRes` is the store's reply to the destructor's delete, if
one is issued).  `none` models a fatal invariant failure during the
actions. -/
def lifecycle (h : ScopedMigrationRequest) (acts : List HandleAction)
    (dtorRes : Status) : Option (List StoreOp × List LogEvent) :=
  match runActions h acts with
  | none => none
  | some (h1, ops, logs) =>
    let d := h1.destruct dtorRes
    some (ops ++ d.1, logs ++ d.2)

/-- Whether the action list contains a `keepDocumentOnDestruct` call. -/
def hasKeep : List HandleAction → Bool
  | [] => false
  | .keepAct :: _ => true
  | .tryRemoveAct _ :: rest => hasKeep rest

/-- Whether every explicit `tryToRemoveMigration` in the action list gets
an OK reply from the store. -/
def allTryRemoveOK : List HandleAction → Bool
  | [] => true
  | .tryRemoveAct res :: rest => res.isOK && allTryRemoveOK rest
  | .keepAct :: rest => allTryRemoveOK rest

theorem countInserts_append (a b : List StoreOp) :
    countInserts (a ++ b) = countInserts a + countInserts b := by
  induction a with
  | nil => simp [countInserts]
  | cons x rest ih =>
    cases x <;> simp [countInserts, ih]
    all_goals omega

theorem countRemoves_append (a b : List StoreOp) :
    countRemoves (a ++ b) = countRemoves a + countRemoves b := by
  induction a with
  | nil => simp [countRemoves]
  | cons x rest ih =>
    cases x <;> simp [countRemoves, ih]
    all_goals omega

theorem writeMigrationLoop_insert_bound (mt : MigrationType) (info : MigrateInfo)
    (nss : String) (rounds : List StoreRound) :
    countInserts (writeMigrationLoop mt info nss rounds).1 ≤ rounds.length := by
  induction rounds with
  | nil => simp [writeMigrationLoop, countInserts]
  | cons r rest ih =>
    rcases r with ⟨ir, fr, rr⟩
    rcases ir with _ | ⟨code, reason⟩
    · simp [writeMigrationLoop, countInserts]
    · by_cases hc : code = ErrorCodes.DuplicateKey
      · subst hc
        rcases fr with ⟨fc, fr2⟩ | docs
        · simp [writeMigrationLoop, countInserts]
        · match docs with
          | [] =>
            simp [writeMigrationLoop, countInserts, countInserts_append]
            omega
          | [d] =>
            rcases d with m | ⟨bc, br⟩
            · simp only [writeMigrationLoop, BDoc.fromBSON, reduceIte]
              split
              all_goals (simp [countInserts]; try omega)
            · simp [writeMigrationLoop, BDoc.fromBSON, countInserts]
          | d1 :: d2 :: ds =>
            simp [writeMigrationLoop, countInserts]
      · simp [writeMigrationLoop, hc, ScopedMigrationRequest.destruct, countInserts]

/-- C1 (counterexample): with a store that answers every insert with a
uniqueness conflict and every verification query with no documents, the
exhausted-retries error is returned after exactly 2 insert attempts — not
after 3.  The loop bound `kDuplicateKeyErrorMaxRetries = 2` counts total
insert attempts, so the retry bound is 1 attempt beyond the first, not 2
as the claim states. -/
theorem C1_counterexample :
    countInserts (writeMigration
        (fun _ => ⟨.error .DuplicateKey "E11000", .ok [], .ok⟩)
        ⟨"db.coll", 10, 20, "shard1", "shard2"⟩ false).1 = 2 ∧
    (writeMigration
        (fun _ => ⟨.error .DuplicateKey "E11000", .ok [], .ok⟩)
        ⟨"db.coll", 10, 20, "shard1", "shard2"⟩ false).2.2 =
      .err (exhaustedRetriesStatus ⟨"db.coll", 10, 20, "shard1", "shard2"⟩ "db.coll") := by
  exact ⟨rfl, rfl⟩

/-- C1 (amended): every `writeMigration` execution makes at most
`kDuplicateKeyErrorMaxRetries = 2` insert attempts in total — that is, at
most 1 retry beyond the first attempt — before either returning or
falling through to the exhausted-retries error. -/
theorem C1_retry_bound (store : Nat → StoreRound) (info : MigrateInfo)
    (waitForDelete : Bool) :
    countInserts (writeMigration store info waitForDelete).1 ≤
      kDuplicateKeyErrorMaxRetries := by
  have h := writeMigrationLoop_insert_bound
    (MigrationType.ofMigrateInfo info.ns info waitForDelete) info info.ns
    (List.ofFn fun i : Fin kDuplicateKeyErrorMaxRetries => store i)
  simpa [writeMigration] using h

/-- C4: move assignment (and move construction, which delegates to it)
copies the Armed/Disarmed state and the identity from the source to the
destination and forces the source into Disarmed regardless of its prior
state; afterwards disposing of the source performs no store action, while
disposing of the destination performs exactly the action the source would
have performed. -/
theorem C4_move_semantics (dest src : ScopedMigrationRequest) (r : Status) :
    (moveAssign dest src).1.opCtx = src.opCtx ∧
    (moveAssign dest src).1.ident = src.ident ∧
    (moveAssign dest src).2.opCtx = false ∧
    ((moveAssign dest src).2).destruct r = ([], []) ∧
    ((moveAssign dest src).1).destruct r = src.destruct r ∧
    (moveConstruct src).1 = (moveAssign dest src).1 ∧
    ((moveConstruct src).2).destruct r = ([], []) := by
  refine ⟨rfl, rfl, rfl, ?_, rfl, rfl, ?_⟩ <;>
    simp [moveAssign, moveConstruct, ScopedMigrationRequest.destruct]

/-- C8: `createForRecovery` performs no store interaction (its return type
admits none) and cannot fail; it yields an Armed handle whose identity is
the given `(namespace, minKey)`, and destroying that handle issues exactly
one best-effort delete at that identity — no prior existence check, since
no query ever happens. -/
theorem C8_createForRecovery (nss : String) (k : Int) (r : Status) :
    (createForRecovery nss k).opCtx = true ∧
    (createForRecovery nss k).ident = ⟨nss, k⟩ ∧
    ((createForRecovery nss k).destruct r).1 = [.removeOp ⟨nss, k⟩ .majority] ∧
    countRemoves ((createForRecovery nss k).destruct r).1 = 1 := by
  refine ⟨rfl, rfl, ?_, ?_⟩ <;>
    simp [createForRecovery, ScopedMigrationRequest.destruct,
      ScopedMigrationRequest.ident, countRemoves]

/-- C10: move-assigning a handle to itself is a no-op (the assignment body
is guarded by a self-assignment check): state and identity are unchanged,
and disposal behaves exactly as before; in particular an Armed handle
stays Armed. -/
theorem C10_self_move (h : ScopedMigrationRequest) (r : Status) :
    moveAssignSelf h = h ∧
    (moveAssignSelf h).opCtx = h.opCtx ∧
    (moveAssignSelf h).ident = h.ident ∧
    (moveAssignSelf h).destruct r = h.destruct r :=
  ⟨rfl, rfl, rfl, rfl⟩

/-- C2 (counterexample): two runs that differ only in the destination
owner of the already-active migration ("shard9" vs "shard7", both
conflicting with the requested "shard2") return the identical error value:
the raw DuplicateKey status produced by the store insert, with reason
"dup".  The returned error therefore cannot describe either the requested
or the active migration — those appear only in the log (event 21901), not
in the error returned to the caller. -/
theorem C2_counterexample :
    (writeMigration (fun _ =>
        ⟨.error .DuplicateKey "dup",
         .ok [.wellFormed ⟨"db.coll", 10, 20, "shard1", "shard9", false⟩], .ok⟩)
      ⟨"db.coll", 10, 20, "shard1", "shard2"⟩ false).2.2 =
      .err (.error .DuplicateKey "dup") ∧
    (writeMigration (fun _ =>
        ⟨.error .DuplicateKey "dup",
         .ok [.wellFormed ⟨"db.coll", 10, 20, "shard1", "shard7", false⟩], .ok⟩)
      ⟨"db.coll", 10, 20, "shard1", "shard2"⟩ false).2.2 =
      .err (.error .DuplicateKey "dup") := by
  exact ⟨rfl, rfl⟩

/-- C2 (amended): when the uniqueness-conflict query finds a record whose
owners differ from the requested descriptor, no handle is returned; the
requested and active descriptors are surfaced in the log event (21901),
and the error value returned to the caller is the store insert status
(DuplicateKey) unchanged. -/
theorem C2_mismatch_logged (rest : List StoreRound) (mt : MigrationType)
    (info : MigrateInfo) (nss : String) (reason : String)
    (act : MigrationType) (rr : Status)
    (hm : act.toMigrateInfo.toShard ≠ info.toShard ∨
          act.toMigrateInfo.fromShard ≠ info.fromShard) :
    writeMigrationLoop mt info nss
        (⟨.error .DuplicateKey reason, .ok [.wellFormed act], rr⟩ :: rest) =
      ([.insertOp mt .majority, .findOp ⟨nss, info.minKey⟩],
       [.activeMigrationConflict info act.toMigrateInfo
          (.error .DuplicateKey reason)],
       .err (.error .DuplicateKey reason)) := by
  simp only [writeMigrationLoop, BDoc.fromBSON, reduceIte]
  rw [if_pos hm]

theorem C2_mismatch_logged_witness :
    writeMigrationLoop ⟨"db.coll", 10, 20, "shard1", "shard2", false⟩
        ⟨"db.coll", 10, 20, "shard1", "shard2"⟩ "db.coll"
        [⟨.error .DuplicateKey "dup",
          .ok [.wellFormed ⟨"db.coll", 10, 20, "shard1", "shard9", false⟩], .ok⟩] =
      ([.insertOp ⟨"db.coll", 10, 20, "shard1", "shard2", false⟩ .majority,
        .findOp ⟨"db.coll", 10⟩],
       [.activeMigrationConflict ⟨"db.coll", 10, 20, "shard1", "shard2"⟩
          ⟨"db.coll", 10, 20, "shard1", "shard9"⟩ (.error .DuplicateKey "dup")],
       .err (.error .DuplicateKey "dup")) :=
  C2_mismatch_logged [] ⟨"db.coll", 10, 20, "shard1", "shard2", false⟩
    ⟨"db.coll", 10, 20, "shard1", "shard2"⟩ "db.coll" "dup"
    ⟨"db.coll", 10, 20, "shard1", "shard9", false⟩ .ok (by decide)

/-- C5: when the insert hits a uniqueness conflict and the verification
query finds exactly one well-formed record whose source and destination
owners both match the requested descriptor, `writeMigration` treats the
join as success and returns an Armed handle for `(namespace, minKey)`,
even though this call performed no insert. -/
theorem C5_join_matching (rest : List StoreRound) (mt : MigrationType)
    (info : MigrateInfo) (nss : String) (reason : String)
    (act : MigrationType) (rr : Status)
    (hto : act.toMigrateInfo.toShard = info.toShard)
    (hfrom : act.toMigrateInfo.fromShard = info.fromShard) :
    writeMigrationLoop mt info nss
        (⟨.error .DuplicateKey reason, .ok [.wellFormed act], rr⟩ :: rest) =
      ([.insertOp mt .majority, .findOp ⟨nss, info.minKey⟩], [],
       .handle ⟨true, nss, info.minKey⟩) := by
  simp only [writeMigrationLoop, BDoc.fromBSON, reduceIte]
  rw [if_neg (not_or.mpr ⟨not_not_intro hto, not_not_intro hfrom⟩)]

theorem C5_join_matching_witness :
    writeMigrationLoop ⟨"db.coll", 10, 20, "shard1", "shard2", false⟩
        ⟨"db.coll", 10, 20, "shard1", "shard2"⟩ "db.coll"
        [⟨.error .DuplicateKey "dup",
          .ok [.wellFormed ⟨"db.coll", 10, 20, "shard1", "shard2", true⟩], .ok⟩] =
      ([.insertOp ⟨"db.coll", 10, 20, "shard1", "shard2", false⟩ .majority,
        .findOp ⟨"db.coll", 10⟩], [],
       .handle ⟨true, "db.coll", 10⟩) :=
  C5_join_matching [] ⟨"db.coll", 10, 20, "shard1", "shard2", false⟩
    ⟨"db.coll", 10, 20, "shard1", "shard2"⟩ "db.coll" "dup"
    ⟨"db.coll", 10, 20, "shard1", "shard2", true⟩ .ok rfl rfl

/-- C9: when the insert fails with an error other than DuplicateKey, the
local handle constructed before the error return fires its destructor on
the way out: the trace is the insert followed by one best-effort majority
delete at the migration identity; a failing delete is logged (event
21900) and swallowed, and the caller receives exactly the original insert
error. -/
theorem C9_nondup_cleanup (rest : List StoreRound) (mt : MigrationType)
    (info : MigrateInfo) (nss : String) (code : ErrorCodes)
    (reason : String) (fr : Except (ErrorCodes × String) (List BDoc))
    (rr : Status) (hc : code ≠ ErrorCodes.DuplicateKey) :
    writeMigrationLoop mt info nss (⟨.error code reason, fr, rr⟩ :: rest) =
      ([.insertOp mt .majority, .removeOp ⟨nss, info.minKey⟩ .majority],
       if rr.isOK then [] else [.removeFailed ⟨nss, info.minKey⟩ rr],
       .err (.error code reason)) := by
  simp only [writeMigrationLoop]
  rw [if_neg hc]
  simp [ScopedMigrationRequest.destruct, ScopedMigrationRequest.ident]

theorem C9_nondup_cleanup_witness :
    writeMigrationLoop ⟨"db.coll", 10, 20, "shard1", "shard2", false⟩
        ⟨"db.coll", 10, 20, "shard1", "shard2"⟩ "db.coll"
        [⟨.error (.other 5) "boom", .ok [], .error (.other 6) "delfail"⟩] =
      ([.insertOp ⟨"db.coll", 10, 20, "shard1", "shard2", false⟩ .majority,
        .removeOp ⟨"db.coll", 10⟩ .majority],
       [.removeFailed ⟨"db.coll", 10⟩ (.error (.other 6) "delfail")],
       .err (.error (.other 5) "boom")) :=
  C9_nondup_cleanup [] ⟨"db.coll", 10, 20, "shard1", "shard2", false⟩
    ⟨"db.coll", 10, 20, "shard1", "shard2"⟩ "db.coll" (.other 5) "boom"
    (.ok []) (.error (.other 6) "delfail") (by decide)

theorem runActions_disarmed (h : ScopedMigrationRequest)
    (acts : List HandleAction)
    (t : ScopedMigrationRequest × List StoreOp × List LogEvent)
    (hd : h.opCtx = false) (hr : runActions h acts = some t) :
    acts = [] ∧ t = (h, [], []) := by
  cases acts with
  | nil =>
    simp [runActions] at hr
    exact ⟨rfl, hr.symm⟩
  | cons a rest =>
    cases a with
    | tryRemoveAct res =>
      simp [runActions, ScopedMigrationRequest.tryToRemoveMigration, hd] at hr
    | keepAct =>
      simp [runActions, ScopedMigrationRequest.keepDocumentOnDestruct, hd] at hr

theorem runActions_armed_count (acts : List HandleAction)
    (h : ScopedMigrationRequest)
    (t : ScopedMigrationRequest × List StoreOp × List LogEvent)
    (hc : h.opCtx = true) (hok : allTryRemoveOK acts = true)
    (hr : runActions h acts = some t) :
    (t.1.opCtx = true ∧ countRemoves t.2.1 = 0 ∧ hasKeep acts = false) ∨
    (t.1.opCtx = false ∧ countRemoves t.2.1 = (if hasKeep acts then 0 else 1)) := by
  cases acts with
  | nil =>
    simp [runActions] at hr
    left
    simp [← hr, countRemoves, hasKeep, hc]
  | cons a rest =>
    cases a with
    | tryRemoveAct res =>
      simp [allTryRemoveOK] at hok
      obtain ⟨hres, hok2⟩ := hok
      simp [runActions, ScopedMigrationRequest.tryToRemoveMigration, hc, hres] at hr
      cases hrest : runActions ⟨false, h.nss, h.minKey⟩ rest with
      | none => simp [hrest] at hr
      | some t2 =>
        obtain ⟨hnil, ht2⟩ := runActions_disarmed _ _ _ rfl hrest
        subst hnil
        subst ht2
        rw [hrest] at hr
        simp at hr
        right
        simp [← hr, countRemoves, hasKeep]
    | keepAct =>
      simp [allTryRemoveOK] at hok
      simp [runActions, ScopedMigrationRequest.keepDocumentOnDestruct, hc] at hr
      cases hrest : runActions ⟨false, h.nss, h.minKey⟩ rest with
      | none => simp [hrest] at hr
      | some t2 =>
        obtain ⟨hnil, ht2⟩ := runActions_disarmed _ _ _ rfl hrest
        subst hnil
        subst ht2
        rw [hrest] at hr
        simp at hr
        right
        simp [← hr, countRemoves, hasKeep]

/-- C3 (counterexample): a handle whose explicit `tryToRemoveMigration`
fails (store error) stays Armed, and its destructor then issues a second
best-effort delete at the same identity: two removals are triggered
across one lifetime, refuting "never two". -/
theorem C3_counterexample :
    lifecycle ⟨true, "db.coll", 10⟩
        [.tryRemoveAct (.error (.other 0) "network error")] .ok =
      some ([.removeOp ⟨"db.coll", 10⟩ .majority,
             .removeOp ⟨"db.coll", 10⟩ .majority], []) ∧
    countRemoves [.removeOp ⟨"db.coll", 10⟩ .majority,
                  .removeOp ⟨"db.coll", 10⟩ .majority] = 2 := by
  exact ⟨rfl, rfl⟩

/-- C3 (amended): across a handle lifetime in which every explicit
`tryToRemoveMigration` call is answered with success by the store,
exactly one removal of the identity is triggered — zero if
`keepDocumentOnDestruct` was called; in particular a successful
`tryToRemoveMigration` disarms the handle, so the destructor performs no
second removal.  (When a `tryToRemoveMigration` fails, the handle stays
Armed and scope end triggers a further best-effort delete — see the
counterexample.) -/
theorem C3_exactly_once (h : ScopedMigrationRequest) (acts : List HandleAction)
    (dtorRes : Status) (out : List StoreOp × List LogEvent)
    (hc : h.opCtx = true) (hok : allTryRemoveOK acts = true)
    (hl : lifecycle h acts dtorRes = some out) :
    countRemoves out.1 = if hasKeep acts then 0 else 1 := by
  unfold lifecycle at hl
  cases hract : runActions h acts with
  | none => rw [hract] at hl; simp at hl
  | some t =>
    obtain ⟨h1, ops, logs⟩ := t
    rw [hract] at hl
    simp only [Option.some.injEq] at hl
    rcases runActions_armed_count acts h (h1, ops, logs) hc hok hract with
      ⟨ha, hcount, hkeep⟩ | ⟨ha, hcount⟩
    · simp only at ha hcount
      rw [← hl]
      simp [ScopedMigrationRequest.destruct, ha, hkeep, countRemoves_append,
        hcount, countRemoves]
    · simp only at ha hcount
      rw [← hl]
      simp [ScopedMigrationRequest.destruct, ha, countRemoves_append, hcount,
        countRemoves]

theorem C3_exactly_once_witness :
    countRemoves [StoreOp.removeOp ⟨"db.coll", 3⟩ .majority] =
      if hasKeep [] then 0 else 1 :=
  C3_exactly_once ⟨true, "db.coll", 3⟩ [] .ok
    ([.removeOp ⟨"db.coll", 3⟩ .majority], []) rfl rfl rfl

/-- C6: at scope end an Armed handle issues exactly one majority-write-
concern delete at its identity, logging (event 21900) and swallowing any
failure — the destructor's return type carries no status, so no error can
propagate; a Disarmed handle performs no store action and emits no log. -/
theorem C6_destructor (h : ScopedMigrationRequest) (r : Status) :
    (h.opCtx = true →
      h.destruct r = ([.removeOp h.ident .majority],
        if r.isOK then [] else [.removeFailed h.ident r]) ∧
      countRemoves (h.destruct r).1 = 1) ∧
    (h.opCtx = false → h.destruct r = ([], [])) := by
  constructor
  · intro hd
    constructor
    · simp [ScopedMigrationRequest.destruct, hd]
    · simp [ScopedMigrationRequest.destruct, hd, countRemoves]
  · intro hd
    simp [ScopedMigrationRequest.destruct, hd]

theorem C6_destructor_witness :
    (⟨true, "db.c", 7⟩ : ScopedMigrationRequest).destruct
        (.error (.other 1) "net") =
      ([.removeOp ⟨"db.c", 7⟩ .majority],
       [.removeFailed ⟨"db.c", 7⟩ (.error (.other 1) "net")]) ∧
    (⟨false, "db.c", 7⟩ : ScopedMigrationRequest).destruct .ok = ([], []) := by
  constructor
  · exact ((C6_destructor ⟨true, "db.c", 7⟩ (.error (.other 1) "net")).1 rfl).1
  · exact (C6_destructor ⟨false, "db.c", 7⟩ .ok).2 rfl

/-- C7: on an Armed handle, `tryToRemoveMigration` issues one synchronous
majority delete at the identity and hands the store status back to the
caller unchanged; on success the handle transitions to Disarmed, on
failure the handle is returned unchanged (still Armed, same identity), so
disposing of it afterwards still fires the best-effort delete. -/
theorem C7_tryToRemove (h : ScopedMigrationRequest) (r dres : Status)
    (hc : h.opCtx = true) :
    h.tryToRemoveMigration r =
      some ((if r.isOK then ⟨false, h.nss, h.minKey⟩ else h), r,
            [.removeOp h.ident .majority]) ∧
    (r.isOK = true →
      (h.tryToRemoveMigration r).map (fun x => x.1.opCtx) = some false) ∧
    (r.isOK = false →
      (h.tryToRemoveMigration r).map (fun x => x.1) = some h ∧
      (h.tryToRemoveMigration r).map (fun x => (x.1.destruct dres).1) =
        some [.removeOp h.ident .majority]) := by
  refine ⟨by simp [ScopedMigrationRequest.tryToRemoveMigration, hc], ?_, ?_⟩
  · intro hok
    simp [ScopedMigrationRequest.tryToRemoveMigration, hc, hok]
  · intro hfail
    constructor
    · simp [ScopedMigrationRequest.tryToRemoveMigration, hc, hfail]
    · simp [ScopedMigrationRequest.tryToRemoveMigration,
        ScopedMigrationRequest.destruct, hc, hfail]

theorem C7_tryToRemove_witness :
    ((⟨true, "db.c", 9⟩ : ScopedMigrationRequest).tryToRemoveMigration
        (.error (.other 2) "wc timeout") =
      some ((⟨true, "db.c", 9⟩ : ScopedMigrationRequest),
            .error (.other 2) "wc timeout",
            [.removeOp ⟨"db.c", 9⟩ .majority])) ∧
    ((⟨true, "db.c", 9⟩ : ScopedMigrationRequest).tryToRemoveMigration .ok =
      some ((⟨false, "db.c", 9⟩ : ScopedMigrationRequest), .ok,
            [.removeOp ⟨"db.c", 9⟩ .majority])) := by
  constructor
  · exact (C7_tryToRemove ⟨true, "db.c", 9⟩ (.error (.other 2) "wc timeout")
      .ok rfl).1
  · exact (C7_tryToRemove ⟨true, "db.c", 9⟩ .ok .ok rfl).1

end ScopedMigration
